import Mathlib

/-!
Shallow embedding of `linked_to_epstein.py` (contact extractor, lookup client,
report renderer) together with theorems checking the natural-language
specification against it.  Python strings are modelled as Lean `String`,
Python `None`-able string values as `Option String`, machine integers as
`Int`/`Nat`, and the remote HTTP service as an oracle assigning an outcome to
each attempt.
-/

namespace LinkedToEpstein

/-- One hit object from the remote API response (`data.hits[]`); the renderer
reads the keys `content_preview`, `content` and `file_path`, each defaulting
to the empty string when absent, so the model stores them directly. -/
structure Hit where
  content_preview : String
  content : String
  file_path : String
deriving DecidableEq

/-- Normalised return value of `search_epstein_files`: keys `total_hits`,
`hits` and the optional `error` key (present only on exhausted retries). -/
structure SearchResult where
  total_hits : Nat
  hits : List Hit
  error : Option String
deriving DecidableEq

/-- A parsed contact record as built in `parse_linkedin_contacts`.
`company` and `position` are stored exactly as `row.get(...)` returns them:
a missing cell of a short CSV row is Python `None`, modelled as `none`. -/
structure Contact where
  first_name : String
  last_name : String
  full_name : String
  company : Option String
  position : Option String
deriving DecidableEq

/-- One entry of the `results` list accumulated in `main` (lines 357-365). -/
structure ResultEntry where
  name : String
  first_name : String
  last_name : String
  company : Option String
  position : Option String
  total_mentions : Nat
  hits : List Hit
deriving DecidableEq

/-! ### Python string primitives used by the script -/

/-- Python truthiness of a `None`-able string: `None` and `""` are falsy. -/
def pyTruthy : Option String → Bool
  | none => false
  | some s => !s.isEmpty

/-- Characters stripped by Python `str.strip()` (ASCII whitespace including
vertical tab and form feed, plus the common Unicode space characters). -/
def isPySpace (c : Char) : Bool :=
  c = ' ' || c = Char.ofNat 9 || c = Char.ofNat 10 || c = Char.ofNat 11 ||
  c = Char.ofNat 12 || c = Char.ofNat 13 || c = Char.ofNat 28 ||
  c = Char.ofNat 29 || c = Char.ofNat 30 || c = Char.ofNat 31 ||
  c = Char.ofNat 133 || c = Char.ofNat 160 || c = Char.ofNat 5760 ||
  (Char.ofNat 8192 ≤ c && c ≤ Char.ofNat 8202) || c = Char.ofNat 8232 ||
  c = Char.ofNat 8233 || c = Char.ofNat 8239 || c = Char.ofNat 8287 ||
  c = Char.ofNat 12288

/-- Python `str.strip()` with no argument. -/
def pyStrip (s : String) : String :=
  ⟨((s.data.dropWhile isPySpace).reverse.dropWhile isPySpace).reverse⟩

/-- Membership test of `pat` inside a character list, Python's `pat in s`. -/
def listInfix (pat : List Char) : List Char → Bool
  | [] => pat.isEmpty
  | c :: cs => pat.isPrefixOf (c :: cs) || listInfix pat cs

/-- Python's substring containment `pat in s`. -/
def containsSubstr (s pat : String) : Bool :=
  listInfix pat.data s.data

/-- Python `s.startswith(pre)`. -/
def pyStartsWith (s pre : String) : Bool :=
  pre.data.isPrefixOf s.data

/-- Python code-point slicing `s[:n]`. -/
def pyTake (s : String) (n : Nat) : String :=
  ⟨s.data.take n⟩

/-- Python `s.rstrip(c)` for a single strip character: remove every trailing
occurrence of `c`. -/
def pyRstrip (s : String) (c : Char) : String :=
  ⟨(s.data.reverse.dropWhile (fun d => d = c)).reverse⟩

/-- Left-to-right non-overlapping replacement on character lists, evaluated
with explicit fuel (one unit per consumed character, so `fuel = s.length`
suffices).  Models Python `str.replace` for a non-empty pattern, the only way
the script uses it. -/
def replaceFuel (pat rep : List Char) : Nat → List Char → List Char
  | _, [] => []
  | 0, s => s
  | fuel + 1, c :: cs =>
    if !pat.isEmpty && pat.isPrefixOf (c :: cs) then
      rep ++ replaceFuel pat rep fuel ((c :: cs).drop pat.length)
    else
      c :: replaceFuel pat rep fuel cs

/-- Python `s.replace(pat, rep)` (non-empty `pat`). -/
def pyReplace (s pat rep : String) : String :=
  ⟨replaceFuel pat.data rep.data s.data.length s.data⟩

/-- One character of `html.escape(s, quote=True)`: the five markup-significant
characters become entity references, everything else is kept. -/
def escapeChar (c : Char) : String :=
  if c = '&' then "&amp;"
  else if c = '<' then "&lt;"
  else if c = '>' then "&gt;"
  else if c = '"' then "&quot;"
  else if c = Char.ofNat 39 then "&#x27;"
  else String.singleton c

/-- Python `html.escape` with default `quote=True`. -/
def html_escape (s : String) : String :=
  ⟨s.data.flatMap (fun c => (escapeChar c).data)⟩

/-- UTF-8 encoding of one character as byte values, as `urllib.parse.quote`
encodes its input before percent-encoding. -/
def utf8Bytes (c : Char) : List Nat :=
  let n := c.toNat
  if n < 128 then [n]
  else if n < 2048 then [192 + n / 64, 128 + n % 64]
  else if n < 65536 then [224 + n / 4096, 128 + (n / 64) % 64, 128 + n % 64]
  else [240 + n / 262144, 128 + (n / 4096) % 64, 128 + (n / 64) % 64,
    128 + n % 64]

/-- Bytes `urllib.parse.quote` never encodes: ASCII letters, digits and
`_ . - ~`. -/
def isAlwaysSafe (b : Nat) : Bool :=
  (65 ≤ b && b ≤ 90) || (97 ≤ b && b ≤ 122) || (48 ≤ b && b ≤ 57) ||
  b = 95 || b = 46 || b = 45 || b = 126

/-- Uppercase hexadecimal digit for a value below 16. -/
def hexUpper (n : Nat) : Char :=
  if n < 10 then Char.ofNat (48 + n) else Char.ofNat (55 + n)

/-- Percent-encode one byte, keeping `'/'` (byte 47) literal as the script's
`safe='/'` argument requests. -/
def quoteByteSlash (b : Nat) : List Char :=
  if isAlwaysSafe b || b = 47 then [Char.ofNat b]
  else ['%', hexUpper (b / 16), hexUpper (b % 16)]

/-- Python `urllib.parse.quote(s, safe='/')`. -/
def urlquoteSlash (s : String) : String :=
  ⟨(s.data.flatMap utf8Bytes).flatMap quoteByteSlash⟩

/-- Digit grouping on a reversed digit list: a comma after every three
digits coming from the right. -/
def commaGroupRev : List Char → List Char
  | a :: b :: c :: d :: rest => a :: b :: c :: ',' :: commaGroupRev (d :: rest)
  | l => l

/-- Python format specifier `:,` applied to a non-negative integer. -/
def commaFormat (n : Nat) : String :=
  ⟨(commaGroupRev (Nat.repr n).data.reverse).reverse⟩

/-- String accumulation of a Python `for` loop doing `out += f(x)`. -/
def concatMap (f : α → String) : List α → String
  | [] => ""
  | x :: xs => f x ++ concatMap f xs

/-! ### Contact extractor (`parse_linkedin_contacts`) -/

/-- Field splitter of the `csv` module's default dialect for one record line
(delimiter `,`, quote `"`, doubled quotes inside a quoted field).  The state
is 0 outside quotes, 1 inside quotes, 2 just after a quote seen inside a
quoted field; `acc` holds the current field reversed. -/
def csvGo : Nat → List Char → List Char → List String
  | _, acc, [] => [String.mk acc.reverse]
  | 0, acc, c :: cs =>
    if c = ',' then String.mk acc.reverse :: csvGo 0 [] cs
    else if c = '"' then csvGo 1 acc cs
    else csvGo 0 (c :: acc) cs
  | 1, acc, c :: cs =>
    if c = '"' then csvGo 2 acc cs
    else csvGo 1 (c :: acc) cs
  | _ + 2, acc, c :: cs =>
    if c = '"' then csvGo 1 (c :: acc) cs
    else if c = ',' then String.mk acc.reverse :: csvGo 0 [] cs
    else csvGo 0 (c :: acc) cs

/-- Split one CSV line into its fields. -/
def splitCsvRow (line : String) : List String :=
  csvGo 0 [] line.data

/-- A data row as `csv.DictReader` sees it: the header's column names and the
row's raw fields. -/
structure Row where
  headerCols : List String
  fields : List String
deriving DecidableEq

/-- Index of column `col` in the header.  `DictReader` builds a `dict` from
`zip(fieldnames, row)`, so with duplicated column names the last occurrence
wins. -/
def colIdx (cols : List String) (col : String) : Option Nat :=
  match cols.reverse.findIdx? (fun c => c = col) with
  | none => none
  | some j => some (cols.length - 1 - j)

/-- The raw dictionary cell for a column: `none` when the column is absent
from the header (key missing), `some none` when the row is shorter than the
header (`DictReader` fills with `restval = None`), `some (some v)` otherwise. -/
def rawCell (row : Row) (col : String) : Option (Option String) :=
  match colIdx row.headerCols col with
  | none => none
  | some i => some (row.fields.get? i)

/-- Python `row.get(col, '')`: a missing key yields `''`, a present key
yields its value, which may be `None`. -/
def pyGetDefault (row : Row) (col : String) : Option String :=
  match rawCell row col with
  | none => some ""
  | some v => v

/-- Python `value.strip()` on a `None`-able cell: stripping `None` raises
`AttributeError`. -/
def stripCell : Option String → Except String String
  | some s => Except.ok (pyStrip s)
  | none =>
    Except.error "AttributeError: \x27NoneType\x27 object has no attribute \x27strip\x27"

/-- Loop body of `parse_linkedin_contacts` for one data row
(lines 53-65): strip the two name cells, keep the row only when both are
non-empty. -/
def rowToContact (row : Row) : Except String (Option Contact) :=
  match stripCell (pyGetDefault row "First Name") with
  | Except.error e => Except.error e
  | Except.ok first_name =>
    match stripCell (pyGetDefault row "Last Name") with
    | Except.error e => Except.error e
    | Except.ok last_name =>
      if !first_name.isEmpty && !last_name.isEmpty then
        Except.ok (some
          { first_name := first_name
            last_name := last_name
            full_name := first_name ++ " " ++ last_name
            company := pyGetDefault row "Company"
            position := pyGetDefault row "Position" })
      else
        Except.ok none

/-- Iterate `rowToContact` over the data lines.  `csv` produces no record for
an empty line and `DictReader` skips such empty records. -/
def parseRows (cols : List String) : List String → Except String (List Contact)
  | [] => Except.ok []
  | line :: rest =>
    if line.isEmpty then parseRows cols rest
    else do
      let c? ← rowToContact ⟨cols, splitCsvRow line⟩
      let tail ← parseRows cols rest
      pure (match c? with
        | some c => c :: tail
        | none => tail)

/-- Scan for the first line containing both header markers (lines 40-44),
returning it together with the remaining lines. -/
def findHeader : List String → Option (String × List String)
  | [] => none
  | l :: ls =>
    if containsSubstr l "First Name" && containsSubstr l "Last Name" then
      some (l, ls)
    else findHeader ls

/-- The function `parse_linkedin_contacts` over the pre-split lines of the input file:
skip the preamble, then run `csv.DictReader` keyed by the header row.  The
`Except` layer carries the `AttributeError` Python raises when a name cell of
a short row is `None`. -/
def parse_linkedin_contacts (lines : List String) : Except String (List Contact) :=
  match findHeader lines with
  | none => Except.ok []
  | some (header, rest) => parseRows (splitCsvRow header) rest

/-! ### Lookup client (`search_epstein_files`) -/

/-- Fixed service endpoints from the top of the script. -/
def API_BASE_URL : String := "https://analytics.dugganusa.com/api/v1/search"

/-- Base URL the renderer links PDF hits to. -/
def PDF_BASE_URL : String := "https://www.justice.gov/epstein/files/"

/-- Query URL built in lines 76-78: exact-phrase quotes around the name,
percent-encoded, plus the index selector. -/
def searchUrl (name : String) : String :=
  API_BASE_URL ++ "?q=" ++ urlquoteSlash ("\"" ++ name ++ "\"") ++
    "&indexes=epstein_files"

/-- Outcome of one HTTP attempt as the `try` block observes it: either a
`requests.exceptions.RequestException` (timeouts and HTTP errors included),
or a decoded JSON body with its `success` flag and the `totalHits`/`hits`
fields already defaulted (`0` / `[]`). -/
inductive AttemptOutcome where
  | transportError (msg : String)
  | response (success : Bool) (totalHits : Nat) (hits : List Hit)
deriving DecidableEq

/-- What a call to `search_epstein_files` produces: the returned dictionary,
the number of attempts actually performed, and the warning lines printed to
stderr. -/
structure SearchOutput where
  result : SearchResult
  attempts : Nat
  warnings : List String
deriving DecidableEq

/-- The stderr warning of line 98. -/
def warnLine (name msg : String) : String :=
  "Warning: API request failed for \x27" ++ name ++ "\x27: " ++ msg

/-- Retry loop of lines 80-101, structurally recursive on the number of
remaining iterations (`remaining = max_retries - a` at entry); `a` is the
current value of Python's `attempt`.  When the range is exhausted the
function falls through to line 101. -/
def searchGo (name : String) (oracle : Nat → AttemptOutcome)
    (max_retries : Nat) : Nat → Nat → SearchOutput
  | a, 0 => ⟨⟨0, [], none⟩, a, []⟩
  | a, remaining + 1 =>
    match oracle a with
    | AttemptOutcome.response true totalHits hits =>
      ⟨⟨totalHits, hits, none⟩, a + 1, []⟩
    | AttemptOutcome.response false _ _ => ⟨⟨0, [], none⟩, a + 1, []⟩
    | AttemptOutcome.transportError msg =>
      if a < max_retries - 1 then
        searchGo name oracle max_retries (a + 1) remaining
      else
        ⟨⟨0, [], some msg⟩, a + 1, [warnLine name msg]⟩

/-- The call `search_epstein_files(name, max_retries)` against an oracle of attempt
outcomes. -/
def search_epstein_files (name : String) (oracle : Nat → AttemptOutcome)
    (max_retries : Nat) : SearchOutput :=
  searchGo name oracle max_retries 0 max_retries

/-! ### Report renderer (`generate_html_report`) -/

/-- The `file_path` value after the in-place fix-up of line 245 (only ever
executed for a truthy path). -/
def replacedPath (file_path : String) : String :=
  if file_path.isEmpty then file_path
  else pyReplace file_path "dataset" "DataSet"

/-- The display URL of lines 244-249: empty path yields no URL; otherwise
rewrite `dataset`, drop the base's trailing slash when the path supplies its
own, and percent-encode with `'/'` kept literal. -/
def pdfUrlOf (file_path : String) : String :=
  if file_path.isEmpty then ""
  else
    let fp := pyReplace file_path "dataset" "DataSet"
    let base_url := if pyStartsWith fp "/" then pyRstrip PDF_BASE_URL '/' else PDF_BASE_URL
    base_url ++ urlquoteSlash fp

/-- One hit block (lines 241-256). -/
def renderHit (h : Hit) : String :=
  let preview :=
    if !h.content_preview.isEmpty then h.content_preview else pyTake h.content 500
  let fp := replacedPath h.file_path
  let pdf_url := pdfUrlOf h.file_path
  "\n        <div class=\"hit\">\n            <div class=\"hit-preview\">" ++
    html_escape preview ++ "</div>\n            " ++
    (if !pdf_url.isEmpty then
      "<a class=\"hit-link\" href=\"" ++ html_escape pdf_url ++
        "\" target=\"_blank\">View PDF: " ++ html_escape fp ++ "</a>"
     else "") ++
    "\n        </div>\n"

/-- The `contact_info` list of lines 223-227: escaped position, then escaped
company, each only when truthy. -/
def contactInfoParts (r : ResultEntry) : List String :=
  (if pyTruthy r.position then [html_escape (r.position.getD "")] else []) ++
    (if pyTruthy r.company then [html_escape (r.company.getD "")] else [])

/-- One per-contact block of the report (lines 219-264); a zero-mention
result contributes nothing (`continue` at line 221). -/
def renderEntry (r : ResultEntry) : String :=
  if r.total_mentions = 0 then ""
  else
    "\n    <div class=\"contact\">\n        <div class=\"contact-header\">\n            <div>\n                <div class=\"contact-name\">" ++
      html_escape r.name ++
      "</div>\n                <div class=\"contact-info\">" ++
      String.intercalate " at " (contactInfoParts r) ++
      "</div>\n            </div>\n            <div class=\"hit-count\">" ++
      commaFormat r.total_mentions ++
      " mentions</div>\n        </div>\n" ++
      (if !r.hits.isEmpty then concatMap renderHit r.hits
       else "\n        <div class=\"no-results\">Hit details not available</div>\n") ++
      "\n    </div>\n"

/-- Document prologue of lines 107-214 up to the first summary figure. -/
def reportTemplateHead : String :=
  "<!DOCTYPE html>
<html lang=\"en\">
<head>
    <meta charset=\"UTF-8\">
    <meta name=\"viewport\" content=\"width=device-width, initial-scale=1.0\">
    <title>LinkedIn Contacts in Epstein Files</title>
    <style>
        * \x7b
            box-sizing: border-box;
        \x7d
        body \x7b
            font-family: -apple-system, BlinkMacSystemFont, \x27Segoe UI\x27, Roboto, Oxygen, Ubuntu, sans-serif;
            line-height: 1.6;
            max-width: 1200px;
            margin: 0 auto;
            padding: 20px;
            background-color: #f5f5f5;
        \x7d
        h1 \x7b
            color: #333;
            border-bottom: 2px solid #333;
            padding-bottom: 10px;
        \x7d
        .summary \x7b
            background: #fff;
            padding: 20px;
            border-radius: 8px;
            margin-bottom: 30px;
            box-shadow: 0 2px 4px rgba(0,0,0,0.1);
        \x7d
        .contact \x7b
            background: #fff;
            padding: 20px;
            margin-bottom: 20px;
            border-radius: 8px;
            box-shadow: 0 2px 4px rgba(0,0,0,0.1);
        \x7d
        .contact-header \x7b
            display: flex;
            justify-content: space-between;
            align-items: center;
            border-bottom: 1px solid #eee;
            padding-bottom: 10px;
            margin-bottom: 15px;
        \x7d
        .contact-name \x7b
            font-size: 1.4em;
            font-weight: bold;
            color: #333;
        \x7d
        .contact-info \x7b
            color: #666;
            font-size: 0.9em;
        \x7d
        .hit-count \x7b
            background: #e74c3c;
            color: white;
            padding: 5px 15px;
            border-radius: 20px;
            font-weight: bold;
        \x7d
        .hit \x7b
            background: #f9f9f9;
            padding: 15px;
            margin-bottom: 10px;
            border-radius: 4px;
            border-left: 3px solid #3498db;
        \x7d
        .hit-preview \x7b
            color: #444;
            margin-bottom: 10px;
            font-size: 0.95em;
        \x7d
        .hit-link \x7b
            display: inline-block;
            color: #3498db;
            text-decoration: none;
            font-size: 0.85em;
        \x7d
        .hit-link:hover \x7b
            text-decoration: underline;
        \x7d
        .no-results \x7b
            color: #999;
            font-style: italic;
        \x7d
        .footer \x7b
            margin-top: 40px;
            padding-top: 20px;
            border-top: 1px solid #ddd;
            text-align: center;
            color: #666;
            font-size: 0.9em;
        \x7d
        .footer a \x7b
            color: #3498db;
            text-decoration: none;
        \x7d
        .footer a:hover \x7b
            text-decoration: underline;
        \x7d
    </style>
</head>
<body>
    <h1>LinkedIn Contacts in Epstein Files</h1>

    <div class=\"summary\">
        <strong>Total contacts searched:</strong> "

/-- Document epilogue of lines 266-272. -/
def reportFooter : String :=
  "\n    <div class=\"footer\">
        Epstein files indexed by <a href=\"https://dugganusa.com\" target=\"_blank\">DugganUSA.com</a>
    </div>
</body>
</html>
"

/-- The function `generate_html_report` as a pure document builder (the file write of
lines 274-275 is outside the model).  Note the summary counts are computed
from the already-filtered `results` list it receives. -/
def generate_html_report (results : List ResultEntry) : String :=
  let contacts_with_mentions :=
    (results.filter (fun r => 0 < r.total_mentions)).length
  reportTemplateHead ++ Nat.repr results.length ++
    "<br>\n        <strong>Contacts with mentions:</strong> " ++
    Nat.repr contacts_with_mentions ++ "\n    </div>\n" ++
    concatMap renderEntry results ++ reportFooter

/-! ### The driver loop in `main` (lines 348-384) -/

/-- The dictionary appended at lines 357-365. -/
def mkEntry (c : Contact) (sr : SearchResult) : ResultEntry :=
  { name := c.full_name
    first_name := c.first_name
    last_name := c.last_name
    company := c.company
    position := c.position
    total_mentions := sr.total_hits
    hits := sr.hits }

/-- The accumulation loop of lines 348-365, with the per-name lookup
abstracted into `lookup`: keep a contact exactly when
`total_mentions >= args.min_mentions` (the threshold is a Python `int`). -/
def buildResults (lookup : String → SearchResult) (min_mentions : Int) :
    List Contact → List ResultEntry
  | [] => []
  | c :: cs =>
    let sr := lookup c.full_name
    if min_mentions ≤ (sr.total_hits : Int) then
      mkEntry c sr :: buildResults lookup min_mentions cs
    else
      buildResults lookup min_mentions cs

/-- Sort key of line 372: descending hit count (`reverse=True` on the
`total_mentions` key, which Python performs as a stable sort). -/
def mentionsGe (a b : ResultEntry) : Prop :=
  b.total_mentions ≤ a.total_mentions

instance : DecidableRel mentionsGe := fun a b =>
  inferInstanceAs (Decidable (b.total_mentions ≤ a.total_mentions))

instance : IsTotal ResultEntry mentionsGe :=
  ⟨fun a b => Nat.le_total b.total_mentions a.total_mentions⟩

instance : IsTrans ResultEntry mentionsGe :=
  ⟨fun _ _ _ hab hbc => Nat.le_trans hbc hab⟩

/-- Line 372, `results.sort(key=..., reverse=True)`: Python's sort is stable, modelled
by insertion sort over `mentionsGe`. -/
def pySort (l : List ResultEntry) : List ResultEntry :=
  List.insertionSort mentionsGe l

/-- The two figures printed to stdout at lines 383-384: these use the raw
contact count, unlike the HTML summary. -/
def consoleSummary (contacts : List Contact) (results : List ResultEntry) :
    List String :=
  ["Total contacts searched: " ++ Nat.repr contacts.length,
   "Contacts with mentions: " ++
     Nat.repr ((results.filter (fun r => 0 < r.total_mentions)).length)]

/-- End-to-end data flow of `main` after argument validation: parse, look
up, filter by threshold, sort, render; also returns the parsed contacts and
the console summary lines. -/
def runPipeline (lines : List String) (lookup : String → SearchResult)
    (min_mentions : Int) :
    Except String (List Contact × List ResultEntry × String × List String) :=
  match parse_linkedin_contacts lines with
  | Except.error e => Except.error e
  | Except.ok contacts =>
    let results := pySort (buildResults lookup min_mentions contacts)
    Except.ok (contacts, results, generate_html_report results,
      consoleSummary contacts results)

/-- Observable scheduling events of the lookup loop: one lookup per contact
and the rate-limit sleeps of lines 367-369. -/
inductive RunEv where
  | look (name : String)
  | sleep (d : ℚ)
deriving DecidableEq

/-- Events emitted by the loop of lines 348-369 starting at index `i` with
`n = len(contacts)`: a lookup, then a sleep exactly when
`args.delay > 0 and i < len(contacts) - 1`. -/
def loopEventsFrom (delay : ℚ) (n : Nat) : Nat → List Contact → List RunEv
  | _, [] => []
  | i, c :: cs =>
    RunEv.look c.full_name ::
      ((if 0 < delay ∧ (i : Int) < (n : Int) - 1 then [RunEv.sleep delay] else []) ++
        loopEventsFrom delay n (i + 1) cs)

/-- Full event trace of the lookup loop. -/
def loopEvents (delay : ℚ) (contacts : List Contact) : List RunEv :=
  loopEventsFrom delay contacts.length 0 contacts

/-- Recogniser for sleep events in a loop trace. -/
def isSleepEv : RunEv → Bool
  | RunEv.sleep _ => true
  | RunEv.look _ => false

/-! ### Concrete scenarios and spec-side definitions used by the theorems -/

/-- The spec's end-to-end input: a two-contact CSV (header row followed by
`Alice, Smith, Acme, Engineer` and `Bob, Jones, , `). -/
def c1lines : List String :=
  ["First Name,Last Name,Company,Position",
   "Alice, Smith, Acme, Engineer",
   "Bob, Jones, , "]

/-- The spec's stub remote service: 5 hits for Alice, 0 for Bob. -/
def c1lookup : String → SearchResult := fun name =>
  if name = "Alice Smith" then ⟨5, [], none⟩ else ⟨0, [], none⟩

/-- A result entry whose every text field carries markup-significant
characters, including the spec's injection probe as the contact name. -/
def c7entry : ResultEntry :=
  { name := "O\x27Brien <script>"
    first_name := "O\x27Brien"
    last_name := "<script>"
    company := some "B&r <script>"
    position := some "F<oo>"
    total_mentions := 5
    hits := [{ content_preview := "<script>alert(1)</script>"
               content := ""
               file_path := "/dataset 9/x<y>.pdf" }] }

/-- Modelled from the spec's words for C8, to be compared with `pdfUrlOf`
from the source: rewrite the lowercase segment `dataset` to `DataSet`,
percent-encode with `'/'` left unencoded, and concatenate onto the fixed PDF
base URL, whose trailing `'/'` is stripped exactly when the path already
starts with `'/'`; an empty path yields no link. -/
def specPdfUrl (path : String) : String :=
  if path = "" then ""
  else
    let fixed := pyReplace path "dataset" "DataSet"
    (if pyStartsWith fixed "/" then "https://www.justice.gov/epstein/files"
     else "https://www.justice.gov/epstein/files/") ++ urlquoteSlash fixed

/-! ### Theorems -/

/-- C5: for every input text stream in which no line contains both required
header markers (`First Name` and `Last Name`), the contact extractor returns
an empty sequence of contacts and does not raise an error. -/
theorem c5_no_header_yields_empty (lines : List String)
    (h : ∀ l ∈ lines,
      ¬(containsSubstr l "First Name" = true ∧ containsSubstr l "Last Name" = true)) :
    parse_linkedin_contacts lines = Except.ok [] := by
  unfold parse_linkedin_contacts
  suffices hf : findHeader lines = none by rw [hf]
  induction lines with
  | nil => rfl
  | cons l ls ih =>
    have hl := h l (List.mem_cons_self _ _)
    have hcond : (containsSubstr l "First Name" && containsSubstr l "Last Name") = false := by
      cases hfn : containsSubstr l "First Name" <;>
        cases hln : containsSubstr l "Last Name" <;> simp_all
    simp only [findHeader, hcond, Bool.false_eq_true, if_false]
    exact ih fun x hx => h x (List.mem_cons_of_mem _ hx)

/-- Witness for C5 at a concrete two-line input with no header row. -/
theorem c5_witness :
    parse_linkedin_contacts ["hello world", "First Name only here"] = Except.ok [] :=
  c5_no_header_yields_empty _ (by decide)

/-- C6 is refuted at this input: under the standard LinkedIn header, the
one-field row `Bob` leaves the `Last Name` cell missing, and
`parse_linkedin_contacts` raises Python's `AttributeError` (from
`None.strip()`) instead of silently dropping the row. -/
theorem c6_counterexample :
    parse_linkedin_contacts
      ["First Name,Last Name,Email Address,Company,Position,Connected On", "Bob"] =
      Except.error "AttributeError: \x27NoneType\x27 object has no attribute \x27strip\x27" := by
  rfl

/-- C6 (amended): a parsed CSV data row whose `First Name` and `Last Name`
cells are both present as strings yields a Contact exactly when both are
non-empty after stripping, and is otherwise silently dropped with no
placeholder; but a row short enough that either name cell is missing (Python
`None`) raises an `AttributeError` instead of being dropped. -/
theorem c6_row_gating (row : Row) :
    (∀ fn ln : String,
      pyGetDefault row "First Name" = some fn →
      pyGetDefault row "Last Name" = some ln →
      ((pyStrip fn ≠ "" ∧ pyStrip ln ≠ "") →
        rowToContact row = Except.ok (some
          { first_name := pyStrip fn
            last_name := pyStrip ln
            full_name := pyStrip fn ++ " " ++ pyStrip ln
            company := pyGetDefault row "Company"
            position := pyGetDefault row "Position" })) ∧
      (¬(pyStrip fn ≠ "" ∧ pyStrip ln ≠ "") →
        rowToContact row = Except.ok none)) ∧
    ((pyGetDefault row "First Name" = none ∨ pyGetDefault row "Last Name" = none) →
      rowToContact row =
        Except.error "AttributeError: \x27NoneType\x27 object has no attribute \x27strip\x27") := by
  constructor
  · intro fn ln hfn hln
    constructor
    · intro hne
      have h1 : (pyStrip fn).isEmpty = false := by
        rw [Bool.eq_false_iff]
        intro ht
        exact hne.1 ((String.isEmpty_iff _).mp ht)
      have h2 : (pyStrip ln).isEmpty = false := by
        rw [Bool.eq_false_iff]
        intro ht
        exact hne.2 ((String.isEmpty_iff _).mp ht)
      simp [rowToContact, hfn, hln, stripCell, h1, h2]
    · intro hne
      have : (pyStrip fn).isEmpty = true ∨ (pyStrip ln).isEmpty = true := by
        by_contra hc
        push_neg at hc
        exact hne ⟨fun he => by simp [he, String.isEmpty_iff] at hc,
          fun he => by simp [he, String.isEmpty_iff] at hc⟩
      rcases this with h1 | h1 <;>
        simp [rowToContact, hfn, hln, stripCell, h1]
  · intro hmiss
    rcases hmiss with hF | hL
    · simp [rowToContact, hF, stripCell]
    · cases hF : pyGetDefault row "First Name" with
      | none => simp [rowToContact, hF, stripCell]
      | some fn => simp [rowToContact, hF, hL, stripCell]

/-- Witness for C6's amended theorem at a concrete full row. -/
theorem c6_witness :
    rowToContact ⟨["First Name", "Last Name"], [" Al ", "Ba"]⟩ =
      Except.ok (some
        { first_name := "Al"
          last_name := "Ba"
          full_name := "Al Ba"
          company := some ""
          position := some "" }) := by
  have h := ((c6_row_gating ⟨["First Name", "Last Name"], [" Al ", "Ba"]⟩).1
    " Al " "Ba" (by decide) (by decide)).1 (by decide)
  rw [h]
  rfl

/-- C10: with `max_retries = 0` the retry loop body never runs: no request
attempt is made and the result is zero hits, no hit list, and no error
indicator; consequently a result can carry the error indicator only when
`max_retries` is at least 1. -/
theorem c10_zero_retries (name : String) (oracle : Nat → AttemptOutcome) :
    search_epstein_files name oracle 0 =
      ⟨⟨0, [], none⟩, 0, []⟩ ∧
    (∀ max_retries : Nat,
      (search_epstein_files name oracle max_retries).result.error.isSome = true →
      1 ≤ max_retries) := by
  refine ⟨rfl, ?_⟩
  intro n h
  match n with
  | 0 => simp [search_epstein_files, searchGo] at h
  | k + 1 => exact Nat.succ_le_succ (Nat.zero_le k)

/-- Witness for C10 at a concrete oracle whose single attempt fails. -/
theorem c10_witness :
    search_epstein_files "Jane Roe" (fun _ => AttemptOutcome.transportError "timeout") 0 =
      ⟨⟨0, [], none⟩, 0, []⟩ ∧ 1 ≤ 1 :=
  ⟨(c10_zero_retries "Jane Roe" (fun _ => AttemptOutcome.transportError "timeout")).1,
   (c10_zero_retries "Jane Roe" (fun _ => AttemptOutcome.transportError "timeout")).2
     1 (by decide)⟩

/-- C8: the displayed link URL is the `dataset`-to-`DataSet` rewrite of the
hit's path, percent-encoded keeping `'/'`, appended to the fixed PDF base
URL whose trailing slash is stripped exactly when the path starts with
`'/'`; a hit with an empty file path yields no link element. -/
theorem c8_link_derivation :
    (∀ path : String, pdfUrlOf path = specPdfUrl path) ∧
    (∀ h : Hit, h.file_path = "" →
      renderHit h =
        "\n        <div class=\"hit\">\n            <div class=\"hit-preview\">" ++
          html_escape (if !h.content_preview.isEmpty then h.content_preview
            else pyTake h.content 500) ++
          "</div>\n            " ++ "\n        </div>\n") := by
  constructor
  · intro path
    by_cases hp : path = ""
    · subst hp; rfl
    · have hp' : path.isEmpty = false := by
        rw [Bool.eq_false_iff]
        intro ht
        exact hp ((String.isEmpty_iff _).mp ht)
      have hbase : pyRstrip "https://www.justice.gov/epstein/files/" '/' =
          "https://www.justice.gov/epstein/files" := by decide
      unfold pdfUrlOf specPdfUrl
      rw [hp']
      simp only [Bool.false_eq_true, if_false, if_neg hp]
      by_cases hs : pyStartsWith (pyReplace path "dataset" "DataSet") "/" = true <;>
        simp [hs, PDF_BASE_URL, hbase]
  · intro h hfp
    have e1 : ("" : String).isEmpty = true := rfl
    simp [renderHit, pdfUrlOf, replacedPath, hfp, e1]

/-- Witness for C8's empty-path conjunct and the URL equation at concrete
inputs. -/
theorem c8_witness :
    pdfUrlOf "/dataset 1/a b.pdf" = specPdfUrl "/dataset 1/a b.pdf" ∧
    renderHit { content_preview := "p", content := "", file_path := "" } =
      "\n        <div class=\"hit\">\n            <div class=\"hit-preview\">" ++
        html_escape (if !("p" : String).isEmpty then "p" else pyTake "" 500) ++
        "</div>\n            " ++ "\n        </div>\n" :=
  ⟨c8_link_derivation.1 "/dataset 1/a b.pdf",
   c8_link_derivation.2 { content_preview := "p", content := "", file_path := "" } rfl⟩

/-- Helper: when every attempt up to `n` fails, the retry loop entered at
attempt `a` (with `remaining = n - a` iterations left) returns the zero-hit
error result of the last attempt, after `n` attempts and one warning. -/
theorem searchGo_allFail (name : String) (oracle : Nat → AttemptOutcome)
    (n : Nat) (msgf : Nat → String)
    (hfail : ∀ i, i < n → oracle i = AttemptOutcome.transportError (msgf i)) :
    ∀ remaining a, a + remaining = n → 1 ≤ remaining →
      searchGo name oracle n a remaining =
        ⟨⟨0, [], some (msgf (n - 1))⟩, n, [warnLine name (msgf (n - 1))]⟩ := by
  intro remaining
  induction remaining with
  | zero => intro a _ h1; exact absurd h1 (by omega)
  | succ r ih =>
    intro a hsum _
    have ha : a < n := by omega
    simp only [searchGo, hfail a ha]
    by_cases h2 : a < n - 1
    · rw [if_pos h2]
      exact ih (a + 1) (by omega) (by omega)
    · rw [if_neg h2]
      have ha1 : a + 1 = n := by omega
      have ha2 : a = n - 1 := by omega
      rw [ha1, ha2]

/-- C4: when every one of the `max_retries ≥ 1` attempts fails with a
transport failure, the lookup returns zero hits, an empty hit list and the
error indicator of the last failure, after logging exactly one warning; and
in `main` such a zero-hit contact is dropped from the results whenever the
minimum-mention threshold is positive. -/
theorem c4_transport_failure (name : String) (oracle : Nat → AttemptOutcome)
    (n : Nat) (msgf : Nat → String) (hn : 1 ≤ n)
    (hfail : ∀ i, i < n → oracle i = AttemptOutcome.transportError (msgf i)) :
    search_epstein_files name oracle n =
      ⟨⟨0, [], some (msgf (n - 1))⟩, n, [warnLine name (msgf (n - 1))]⟩ ∧
    (∀ (min_mentions : Int) (lookup : String → SearchResult) (c : Contact)
        (cs : List Contact),
      1 ≤ min_mentions →
      lookup c.full_name = (search_epstein_files name oracle n).result →
      buildResults lookup min_mentions (c :: cs) =
        buildResults lookup min_mentions cs) := by
  have hmain : search_epstein_files name oracle n =
      ⟨⟨0, [], some (msgf (n - 1))⟩, n, [warnLine name (msgf (n - 1))]⟩ :=
    searchGo_allFail name oracle n msgf hfail n 0 (by omega) hn
  refine ⟨hmain, ?_⟩
  intro m lookup c cs hm hl
  rw [hmain] at hl
  simp only [buildResults, hl]
  rw [if_neg (by push_cast; omega)]

/-- Witness for C4: two attempts, both timing out. -/
theorem c4_witness :
    search_epstein_files "John Q" (fun _ => AttemptOutcome.transportError "boom") 2 =
      ⟨⟨0, [], some "boom"⟩, 2, [warnLine "John Q" "boom"]⟩ ∧
    buildResults (fun _ => ⟨0, [], some "boom"⟩) 1
        [{ first_name := "John", last_name := "Q", full_name := "John Q",
           company := some "", position := some "" }] = [] := by
  have h := c4_transport_failure "John Q"
    (fun _ => AttemptOutcome.transportError "boom") 2 (fun _ => "boom")
    (by omega) (fun i _ => rfl)
  refine ⟨h.1, ?_⟩
  have h2 := h.2 1 (fun _ => ⟨0, [], some "boom"⟩)
    { first_name := "John", last_name := "Q", full_name := "John Q",
      company := some "", position := some "" } [] (by omega) (by rw [h.1])
  exact h2

/-- Helper: shape of the loop trace for a non-empty contact list processed
from index `i` when the delay is positive: look/sleep pairs for all but the
last contact, then a bare lookup. -/
theorem loopFrom_concat (delay : ℚ) (hd : 0 < delay) (n : Nat) :
    ∀ (cs : List Contact) (c : Contact) (i : Nat), i + cs.length + 1 = n →
      loopEventsFrom delay n i (cs ++ [c]) =
        cs.flatMap (fun x => [RunEv.look x.full_name, RunEv.sleep delay]) ++
          [RunEv.look c.full_name] := by
  intro cs
  induction cs with
  | nil =>
    intro c i hn
    simp only [List.length_nil] at hn
    simp only [List.nil_append, loopEventsFrom]
    rw [if_neg (by rintro ⟨-, hlt⟩; omega)]
    simp
  | cons c' cs' ih =>
    intro c i hn
    simp only [List.length_cons] at hn
    simp only [List.cons_append, loopEventsFrom, List.append_eq]
    rw [if_pos ⟨hd, by omega⟩]
    rw [ih c (i + 1) (by omega)]
    simp

/-- Helper: each look/sleep pair contributes exactly one sleep event. -/
theorem countP_sleep_blocks (delay : ℚ) :
    ∀ cs : List Contact,
      (cs.flatMap (fun x => [RunEv.look x.full_name, RunEv.sleep delay])).countP
        isSleepEv = cs.length := by
  intro cs
  induction cs with
  | nil => rfl
  | cons c' cs' ih => simp [List.countP_cons, isSleepEv, ih]

/-- C9: for a non-empty contact list and a positive delay, the trace is
look/sleep pairs for every contact but the last, followed by the final
lookup: the delay is applied after each lookup except the last, never after
the final contact, and a single contact produces no sleep at all. -/
theorem c9_delay_schedule (delay : ℚ) (cs : List Contact) (c : Contact)
    (hd : 0 < delay) :
    loopEvents delay (cs ++ [c]) =
      cs.flatMap (fun x => [RunEv.look x.full_name, RunEv.sleep delay]) ++
        [RunEv.look c.full_name] ∧
    (loopEvents delay (cs ++ [c])).getLast? = some (RunEv.look c.full_name) ∧
    (loopEvents delay (cs ++ [c])).countP isSleepEv = (cs ++ [c]).length - 1 ∧
    loopEvents delay [c] = [RunEv.look c.full_name] := by
  have hmain : loopEvents delay (cs ++ [c]) =
      cs.flatMap (fun x => [RunEv.look x.full_name, RunEv.sleep delay]) ++
        [RunEv.look c.full_name] :=
    loopFrom_concat delay hd (cs ++ [c]).length cs c 0
      (by simp [List.length_append])
  refine ⟨hmain, ?_, ?_, ?_⟩
  · rw [hmain]
    exact List.getLast?_concat _
  · rw [hmain, List.countP_append, countP_sleep_blocks]
    simp [isSleepEv, List.length_append]
  · have h1 := loopFrom_concat delay hd 1 [] c 0 (by simp)
    simpa [loopEvents] using h1

/-- Witness for C9 with two contacts and delay 0.2. -/
theorem c9_witness :
    loopEvents (1 / 5)
        [(⟨"A", "B", "A B", none, none⟩ : Contact), ⟨"C", "D", "C D", none, none⟩] =
      [(⟨"A", "B", "A B", none, none⟩ : Contact)].flatMap
        (fun x => [RunEv.look x.full_name, RunEv.sleep (1 / 5)]) ++
        [RunEv.look "C D"] ∧
    (loopEvents (1 / 5)
      [(⟨"A", "B", "A B", none, none⟩ : Contact), ⟨"C", "D", "C D", none, none⟩]).getLast? =
      some (RunEv.look "C D") ∧
    (loopEvents (1 / 5)
      [(⟨"A", "B", "A B", none, none⟩ : Contact), ⟨"C", "D", "C D", none, none⟩]).countP
      isSleepEv =
      ([(⟨"A", "B", "A B", none, none⟩ : Contact)] ++
        [(⟨"C", "D", "C D", none, none⟩ : Contact)]).length - 1 ∧
    loopEvents (1 / 5) [(⟨"C", "D", "C D", none, none⟩ : Contact)] =
      [RunEv.look "C D"] :=
  c9_delay_schedule (1 / 5) [(⟨"A", "B", "A B", none, none⟩ : Contact)]
    ⟨"C", "D", "C D", none, none⟩ (by norm_num)

/-- C2: every entry surviving into `results` meets the caller's threshold
(the threshold filter runs before rendering), the renderer emits nothing for
a zero-mention entry, and consequently zero-mention survivors contribute
nothing to the rendered detail section for any input and any threshold. -/
theorem c2_two_tier_filtering :
    (∀ (lookup : String → SearchResult) (min_mentions : Int)
        (contacts : List Contact) (r : ResultEntry),
      r ∈ buildResults lookup min_mentions contacts →
      min_mentions ≤ (r.total_mentions : Int)) ∧
    (∀ r : ResultEntry, r.total_mentions = 0 → renderEntry r = "") ∧
    (∀ results : List ResultEntry,
      concatMap renderEntry (results.filter (fun r => 0 < r.total_mentions)) =
        concatMap renderEntry results) := by
  refine ⟨?_, ?_, ?_⟩
  · intro lookup m contacts
    induction contacts with
    | nil => intro r hr; simp [buildResults] at hr
    | cons c cs ih =>
      intro r hr
      simp only [buildResults] at hr
      by_cases h : m ≤ ((lookup c.full_name).total_hits : Int)
      · rw [if_pos h] at hr
        rcases List.mem_cons.mp hr with he | hm
        · subst he; exact h
        · exact ih r hm
      · rw [if_neg h] at hr
        exact ih r hr
  · intro r h
    simp [renderEntry, h]
  · intro results
    induction results with
    | nil => rfl
    | cons r rs ih =>
      by_cases h : r.total_mentions = 0
      · have hr : renderEntry r = "" := by simp [renderEntry, h]
        have hp : decide (0 < r.total_mentions) = false := by simp [h]
        rw [List.filter_cons]
        simp only [hp, Bool.false_eq_true, if_false, concatMap, hr,
          String.empty_append]
        exact ih
      · have hp : decide (0 < r.total_mentions) = true := by
          simp [Nat.pos_of_ne_zero h]
        rw [List.filter_cons]
        simp only [hp, if_true, concatMap]
        rw [ih]

/-- Witness for C2 at a concrete lookup, threshold and entry. -/
theorem c2_witness :
    (1 : Int) ≤
      ((⟨"A B", "A", "B", none, none, 3, []⟩ : ResultEntry).total_mentions : Int) ∧
    renderEntry ⟨"Z Z", "Z", "Z", none, none, 0, []⟩ = "" :=
  ⟨c2_two_tier_filtering.1 (fun _ => ⟨3, [], none⟩) 1 [⟨"A", "B", "A B", none, none⟩]
      ⟨"A B", "A", "B", none, none, 3, []⟩ (by decide),
   c2_two_tier_filtering.2.1 ⟨"Z Z", "Z", "Z", none, none, 0, []⟩ rfl⟩

/-- Helper: inserting `x` with `orderedInsert` over the descending-mentions
relation passes only over entries with strictly more mentions, so the
subsequence of entries at any fixed mention count `c` gains `x` at its front
exactly when `x` has count `c`. -/
theorem filter_orderedInsert (c : Nat) (x : ResultEntry)
    (l : List ResultEntry) :
    (List.orderedInsert mentionsGe x l).filter (fun r => r.total_mentions == c) =
      ((x :: l).filter (fun r => r.total_mentions == c)) := by
  induction l with
  | nil => rfl
  | cons y ys ih =>
    simp only [List.orderedInsert]
    by_cases h : mentionsGe x y
    · rw [if_pos h]
    · rw [if_neg h]
      have hxy : x.total_mentions < y.total_mentions := Nat.lt_of_not_le h
      cases hpx : (x.total_mentions == c) <;> cases hpy : (y.total_mentions == c)
      · simp only [List.filter_cons, hpx, hpy, Bool.false_eq_true, if_false]
        rw [ih]
        simp only [List.filter_cons, hpx, Bool.false_eq_true, if_false]
      · simp only [List.filter_cons, hpx, hpy, Bool.false_eq_true, if_false,
          if_true]
        rw [ih]
        simp only [List.filter_cons, hpx, Bool.false_eq_true, if_false]
      · simp only [List.filter_cons, hpx, hpy, Bool.false_eq_true, if_false,
          if_true]
        rw [ih]
        simp only [List.filter_cons, hpx, if_true]
      · exfalso
        have e1 : x.total_mentions = c := by simpa using hpx
        have e2 : y.total_mentions = c := by simpa using hpy
        omega

/-- Helper: insertion sort over the descending-mentions relation preserves
the relative order of entries with any fixed mention count. -/
theorem filter_insertionSort (c : Nat) (l : List ResultEntry) :
    (List.insertionSort mentionsGe l).filter (fun r => r.total_mentions == c) =
      l.filter (fun r => r.total_mentions == c) := by
  induction l with
  | nil => rfl
  | cons b l ih =>
    show (List.orderedInsert mentionsGe b (List.insertionSort mentionsGe l)).filter _ = _
    rw [filter_orderedInsert]
    simp only [List.filter_cons]
    rw [ih]

/-- Helper: the accumulation loop keeps exactly the contacts meeting the
threshold, in their original order. -/
theorem buildResults_eq (lookup : String → SearchResult) (min_mentions : Int)
    (contacts : List Contact) :
    buildResults lookup min_mentions contacts =
      (contacts.filter
        (fun c => min_mentions ≤ ((lookup c.full_name).total_hits : Int))).map
        (fun c => mkEntry c (lookup c.full_name)) := by
  induction contacts with
  | nil => rfl
  | cons c cs ih =>
    simp only [buildResults, List.filter_cons]
    by_cases h : min_mentions ≤ ((lookup c.full_name).total_hits : Int)
    · rw [if_pos h, ih]
      simp [h]
    · rw [if_neg h, ih]
      simp [h]

/-- C3: the sorted result sequence is descending in hit count, is a
permutation of the filtered results, and entries with equal hit counts keep
their relative order; the filtered results themselves retain the contact
list's original order. -/
theorem c3_sort_descending_stable :
    (∀ l : List ResultEntry,
      List.Sorted mentionsGe (pySort l) ∧
      List.Perm (pySort l) l ∧
      (∀ c : Nat,
        (pySort l).filter (fun r => r.total_mentions == c) =
          l.filter (fun r => r.total_mentions == c))) ∧
    (∀ (lookup : String → SearchResult) (min_mentions : Int)
        (contacts : List Contact),
      buildResults lookup min_mentions contacts =
        (contacts.filter
          (fun c => min_mentions ≤ ((lookup c.full_name).total_hits : Int))).map
          (fun c => mkEntry c (lookup c.full_name))) := by
  refine ⟨fun l => ⟨?_, ?_, fun c => ?_⟩, buildResults_eq⟩
  · exact List.sorted_insertionSort mentionsGe l
  · exact List.perm_insertionSort mentionsGe l
  · exact filter_insertionSort c l

set_option maxRecDepth 100000

/-- C1 is refuted at the spec's own end-to-end scenario: the CSV parses to 2
contacts, but the generated HTML summary derives its figure from the
already-filtered results list, so it reads "Total contacts searched: 1",
not 2. -/
theorem c1_counterexample :
    (runPipeline c1lines c1lookup 1).toOption.map (fun p => p.1.length) =
      some 2 ∧
    (runPipeline c1lines c1lookup 1).toOption.map (fun p =>
      containsSubstr p.2.2.1 "<strong>Total contacts searched:</strong> 2") =
      some false ∧
    (runPipeline c1lines c1lookup 1).toOption.map (fun p =>
      containsSubstr p.2.2.1 "<strong>Total contacts searched:</strong> 1<br>") =
      some true :=
  ⟨by decide, by decide, by decide⟩

/-- C1 (amended): in the end-to-end scenario the HTML report's summary
shows "Total contacts searched: 1" (the number of threshold-surviving
results, not the 2 parsed contacts) and "Contacts with mentions: 1"; only
Alice's block is rendered, with "5 mentions".  The figure 2 appears only in
the console summary printed by `main`. -/
theorem c1_amended :
    (runPipeline c1lines c1lookup 1).toOption.map (fun p => p.1.length) =
      some 2 ∧
    (runPipeline c1lines c1lookup 1).toOption.map (fun p =>
      containsSubstr p.2.2.1 "<strong>Total contacts searched:</strong> 1<br>") =
      some true ∧
    (runPipeline c1lines c1lookup 1).toOption.map (fun p =>
      containsSubstr p.2.2.1 "<strong>Contacts with mentions:</strong> 1") =
      some true ∧
    (runPipeline c1lines c1lookup 1).toOption.map (fun p =>
      containsSubstr p.2.2.1 ">5 mentions</div>") = some true ∧
    (runPipeline c1lines c1lookup 1).toOption.map (fun p =>
      containsSubstr p.2.2.1 "Alice Smith") = some true ∧
    (runPipeline c1lines c1lookup 1).toOption.map (fun p =>
      containsSubstr p.2.2.1 "Bob Jones") = some false ∧
    (runPipeline c1lines c1lookup 1).toOption.map (fun p => p.2.2.2) =
      some ["Total contacts searched: 2", "Contacts with mentions: 1"] :=
  ⟨by decide, by decide, by decide, by decide, by decide, by decide, by decide⟩

/-- Helper: `escapeChar` never produces an angle bracket. -/
theorem escapeChar_no_angle (c : Char) :
    ('<' ∈ (escapeChar c).data → False) ∧ ('>' ∈ (escapeChar c).data → False) := by
  unfold escapeChar
  split_ifs with h1 h2 h3 h4 h5
  · exact ⟨by decide, by decide⟩
  · exact ⟨by decide, by decide⟩
  · exact ⟨by decide, by decide⟩
  · exact ⟨by decide, by decide⟩
  · exact ⟨by decide, by decide⟩
  · constructor
    · intro hm
      have h' : '<' = c := List.mem_singleton.mp (by simpa [String.singleton] using hm)
      exact h2 h'.symm
    · intro hm
      have h' : '>' = c := List.mem_singleton.mp (by simpa [String.singleton] using hm)
      exact h3 h'.symm

/-- Helper: `html_escape` output never contains an angle bracket. -/
theorem html_escape_no_angle (s : String) :
    (html_escape s).data.contains '<' = false ∧
    (html_escape s).data.contains '>' = false := by
  have hlt : ¬ ('<' ∈ (html_escape s).data) := by
    intro hm
    rcases List.mem_flatMap.mp hm with ⟨c, -, hc⟩
    exact (escapeChar_no_angle c).1 hc
  have hgt : ¬ ('>' ∈ (html_escape s).data) := by
    intro hm
    rcases List.mem_flatMap.mp hm with ⟨c, -, hc⟩
    exact (escapeChar_no_angle c).2 hc
  constructor
  · simpa using hlt
  · simpa using hgt

/-- C7: escaped text can never introduce an angle bracket into the
document, and at the concrete scenario of a contact named `O'Brien
<script>` (with markup-laden position, company, preview and file path as
well) the rendered report contains the escaped `&lt;script&gt;` but no
literal `<script>` tag. -/
theorem c7_escaping_no_injection :
    (∀ s : String,
      (html_escape s).data.contains '<' = false ∧
      (html_escape s).data.contains '>' = false) ∧
    containsSubstr (generate_html_report [c7entry]) "<script>" = false ∧
    containsSubstr (generate_html_report [c7entry]) "&lt;script&gt;" = true := by
  refine ⟨fun s => html_escape_no_angle s, ?_, ?_⟩ <;> decide

end LinkedToEpstein
